import Mathlib

/-!
Verification development for the credential-store and authenticator core of
the magnit-vms-cli repository.

The Go package `internal/keyring` (src/internal/keyring/store.go) is embedded
shallowly: the external effects (the zalando go-keyring secret store, the
credentials file on disk, and the process environment) become an explicit
`World` state record threaded through the operations, and Go `error` values
become the inductive `GoError`, with `GoError.is` mirroring `errors.Is`
unwrapping along the `%w` chain of `fmt.Errorf`.
-/

set_option autoImplicit false

deriving instance DecidableEq for Except

namespace MagnitVms

/-- Go strings.TrimSpace: remove leading and trailing whitespace. -/
def trimSpace (s : String) : String :=
  (((s.data.dropWhile Char.isWhitespace).reverse.dropWhile Char.isWhitespace).reverse).asString

/-- Go strings.ToLower (over the ASCII range the store constants use). -/
def toLowerString (s : String) : String :=
  (s.data.map Char.toLower).asString

/-- Constants of src/internal/keyring/store.go. -/
def StoreAuto : String := "auto"

def StoreKeyring : String := "keyring"

def StoreFile : String := "file"

def defaultCredentialBackend : String := StoreAuto

/-- The `Credentials` struct: username and password strings. -/
structure Credentials where
  username : String
  password : String
deriving DecidableEq, Repr

/-- Go `error` values produced by store.go. `wrap ctx e` is
`fmt.Errorf("ctx: %w", e)`; `agg ctx e1 e2` is the dual-backend aggregate
`fmt.Errorf("ctx (keyring: %v, file: %w)", e1, e2)`, whose `errors.Is`
chain follows only the `%w`-wrapped second cause. `keyringFailure`,
`fsFailure` and `parseFailure` stand for opaque errors of the go-keyring
library, the OS filesystem, and yaml.Unmarshal respectively. -/
inductive GoError where
  | credentialsNotFound
  | usernameRequired
  | passwordRequired
  | invalidStore (raw : String)
  | unsupportedStore (raw : String)
  | keyringFailure
  | fsFailure
  | parseFailure
  | missingRequiredFields
  | wrap (context : String) (cause : GoError)
  | agg (context : String) (first second : GoError)
deriving DecidableEq, Repr

/-- `errors.Is e target`: equality, or unwrapping through the `%w` chain. -/
def GoError.is : GoError → GoError → Bool
  | .wrap ctx cause, t => (GoError.wrap ctx cause = t) || cause.is t
  | .agg ctx a b, t => (GoError.agg ctx a b = t) || b.is t
  | e, t => e = t

/-- Content of the credentials.yaml file. `yamlCreds u p` is a well-formed
document whose two scalar fields decoded to `u` and `p` (a missing field
decodes to `""`, matching Go zero values under yaml.Unmarshal); `malformed`
is a document yaml.Unmarshal rejects. -/
inductive FileContent where
  | yamlCreds (username password : String)
  | malformed
deriving DecidableEq, Repr

/-- The external world the store operates on: the native keyring entries for
the fixed service name (`krUser` is the "username" entry, `krPass` the
"password" entry), the credentials file, and fault flags modelling the
backend failures the Go code distinguishes: each `...Fail` flag makes the
corresponding external call fail with an opaque (non-not-found) error. -/
structure World where
  krUser : Option String := none
  krPass : Option String := none
  file : Option FileContent := none
  krSetUserFail : Bool := false
  krSetPassFail : Bool := false
  krGetUserFail : Bool := false
  krGetPassFail : Bool := false
  krDelUserFail : Bool := false
  krDelPassFail : Bool := false
  fileWriteFail : Bool := false
  fileReadFail : Bool := false
  fileRemoveFail : Bool := false
deriving Repr

/-- Result of a go-keyring call: `notFound` is zk.ErrNotFound, `failed` any
other platform error. -/
inductive ZkErr where
  | notFound
  | failed
deriving DecidableEq, Repr

/-- Models zk.Get(serviceName, userKey). -/
def zkGetUser (w : World) : Except ZkErr String :=
  if w.krGetUserFail then .error .failed
  else
    match w.krUser with
    | some v => .ok v
    | none => .error .notFound

/-- Models zk.Get(serviceName, passKey). -/
def zkGetPass (w : World) : Except ZkErr String :=
  if w.krGetPassFail then .error .failed
  else
    match w.krPass with
    | some v => .ok v
    | none => .error .notFound

/-- Models zk.Set(serviceName, userKey, v). -/
def zkSetUser (w : World) (v : String) : Except ZkErr World :=
  if w.krSetUserFail then .error .failed
  else .ok { w with krUser := some v }

/-- Models zk.Set(serviceName, passKey, v). -/
def zkSetPass (w : World) (v : String) : Except ZkErr World :=
  if w.krSetPassFail then .error .failed
  else .ok { w with krPass := some v }

/-- Models zk.Delete(serviceName, userKey): zk.ErrNotFound when the entry is
absent. -/
def zkDelUser (w : World) : Except ZkErr World :=
  if w.krDelUserFail then .error .failed
  else
    match w.krUser with
    | some _ => .ok { w with krUser := none }
    | none => .error .notFound

/-- Models zk.Delete(serviceName, passKey). -/
def zkDelPass (w : World) : Except ZkErr World :=
  if w.krDelPassFail then .error .failed
  else
    match w.krPass with
    | some _ => .ok { w with krPass := none }
    | none => .error .notFound

/-- store.go saveToKeyring: set the username entry, then the password entry,
wrapping the first failure. -/
def saveToKeyring (w : World) (creds : Credentials) : World × Option GoError :=
  match zkSetUser w creds.username with
  | .error _ => (w, some (.wrap "save username to keyring" .keyringFailure))
  | .ok w1 =>
    match zkSetPass w1 creds.password with
    | .error _ => (w1, some (.wrap "save password to keyring" .keyringFailure))
    | .ok w2 => (w2, none)

/-- store.go loadFromKeyring: read both entries; zk.ErrNotFound on either
read becomes ErrCredentialsNotFound, any other read error is wrapped. -/
def loadFromKeyring (w : World) : Except GoError Credentials :=
  match zkGetUser w with
  | .error .notFound => .error .credentialsNotFound
  | .error .failed => .error (.wrap "read username from keyring" .keyringFailure)
  | .ok username =>
    match zkGetPass w with
    | .error .notFound => .error .credentialsNotFound
    | .error .failed => .error (.wrap "read password from keyring" .keyringFailure)
    | .ok password => .ok ⟨username, password⟩

/-- store.go deleteFromKeyring: delete both entries, then report the first
non-not-found failure; zk.ErrNotFound from either delete is tolerated. -/
def deleteFromKeyring (w : World) : World × Option GoError :=
  let r1 := match zkDelUser w with
    | .ok w1 => (w1, (none : Option ZkErr))
    | .error e => (w, some e)
  let r2 := match zkDelPass r1.1 with
    | .ok w2 => (w2, (none : Option ZkErr))
    | .error e => (r1.1, some e)
  match r1.2 with
  | some .failed => (r2.1, some (.wrap "delete username from keyring" .keyringFailure))
  | _ =>
    match r2.2 with
    | some .failed => (r2.1, some (.wrap "delete password from keyring" .keyringFailure))
    | _ => (r2.1, none)

/-- store.go saveToFile: ensure the directory, yaml.Marshal the credentials
and write the file (path resolution, MkdirAll and WriteFile failures are all
modelled by the single `fileWriteFail` flag). -/
def saveToFile (w : World) (creds : Credentials) : World × Option GoError :=
  if w.fileWriteFail then (w, some (.wrap "write credentials file" .fsFailure))
  else ({ w with file := some (.yamlCreds creds.username creds.password) }, none)

/-- store.go loadFromFile: os.ErrNotExist becomes ErrCredentialsNotFound, a
yaml parse error is wrapped, and a document whose username is empty after
TrimSpace or whose password is empty fails with the missing-required-fields
error. -/
def loadFromFile (w : World) : Except GoError Credentials :=
  if w.fileReadFail then .error (.wrap "read credentials file" .fsFailure)
  else
    match w.file with
    | none => .error .credentialsNotFound
    | some .malformed => .error (.wrap "parse credentials file" .parseFailure)
    | some (.yamlCreds u p) =>
      if trimSpace u = "" || p = "" then .error .missingRequiredFields
      else .ok ⟨u, p⟩

/-- store.go deleteFromFile: os.Remove, tolerating os.ErrNotExist. -/
def deleteFromFile (w : World) : World × Option GoError :=
  if w.fileRemoveFail then (w, some (.wrap "delete credentials file" .fsFailure))
  else
    match w.file with
    | none => (w, none)
    | some _ => ({ w with file := none }, none)

/-- store.go normalizeStore: trim whitespace, lowercase, and map the empty
string to the compiled-in default backend (auto). -/
def normalizeStore (store : String) : String :=
  let value := toLowerString (trimSpace store)
  if value = "" then defaultCredentialBackend else value

/-- store.go ValidateCredentialStore: the normalized value must be one of
auto, keyring, file; otherwise an error naming the allowed values. -/
def ValidateCredentialStore (store : String) : Option GoError :=
  if normalizeStore store = StoreAuto ∨ normalizeStore store = StoreKeyring ∨
      normalizeStore store = StoreFile then none
  else some (.invalidStore store)

/-- store.go resolveStore. The process environment variable
MAGNIT_CREDENTIAL_STORE is modelled as the explicit argument `env`: its
trimmed value, when non-empty, replaces the caller preference; the result is
normalized and validated. -/
def resolveStore (env preferredStore : String) : Except GoError String :=
  let store0 := trimSpace env
  let store1 := if store0 = "" then preferredStore else store0
  let store := normalizeStore store1
  match ValidateCredentialStore store with
  | some e => .error e
  | none => .ok store

/-- store.go SaveCredentialsWithStore, with the environment passed
explicitly. Returns the updated world and the Go error (none = nil). -/
def SaveCredentialsWithStore (w : World) (env : String) (creds : Credentials)
    (preferredStore : String) : World × Option GoError :=
  if creds.username = "" then (w, some .usernameRequired)
  else if creds.password = "" then (w, some .passwordRequired)
  else
    match resolveStore env preferredStore with
    | .error e => (w, some e)
    | .ok store =>
      if store = StoreKeyring then saveToKeyring w creds
      else if store = StoreFile then saveToFile w creds
      else if store = StoreAuto then
        match saveToKeyring w creds with
        | (w1, none) => (w1, none)
        | (w1, some keyringErr) =>
          match saveToFile w1 creds with
          | (w2, some fileErr) => (w2, some (.agg "save credentials failed" keyringErr fileErr))
          | (w2, none) => (w2, none)
      else (w, some (.unsupportedStore store))

/-- store.go LoadCredentialsWithStore, with the environment passed
explicitly. -/
def LoadCredentialsWithStore (w : World) (env preferredStore : String) :
    Except GoError Credentials :=
  match resolveStore env preferredStore with
  | .error e => .error e
  | .ok store =>
    if store = StoreKeyring then loadFromKeyring w
    else if store = StoreFile then loadFromFile w
    else if store = StoreAuto then
      match loadFromKeyring w with
      | .ok creds => .ok creds
      | .error err =>
        match loadFromFile w with
        | .ok fileCreds => .ok fileCreds
        | .error fileErr =>
          if err.is .credentialsNotFound && fileErr.is .credentialsNotFound then
            .error .credentialsNotFound
          else if err.is .credentialsNotFound then .error fileErr
          else if fileErr.is .credentialsNotFound then .error err
          else .error (.agg "load credentials failed" err fileErr)
    else .error (.unsupportedStore store)

/-- store.go DeleteCredentialsWithStore, with the environment passed
explicitly. -/
def DeleteCredentialsWithStore (w : World) (env preferredStore : String) :
    World × Option GoError :=
  match resolveStore env preferredStore with
  | .error e => (w, some e)
  | .ok store =>
    if store = StoreKeyring then deleteFromKeyring w
    else if store = StoreFile then deleteFromFile w
    else if store = StoreAuto then
      let r1 := deleteFromKeyring w
      let r2 := deleteFromFile r1.1
      match r1.2, r2.2 with
      | some ke, some fe => (r2.1, some (.agg "delete credentials failed" ke fe))
      | _, _ => (r2.1, none)
    else (w, some (.unsupportedStore store))

/-- store.go SaveCredentials: empty caller preference. -/
def SaveCredentials (w : World) (env : String) (creds : Credentials) :
    World × Option GoError :=
  SaveCredentialsWithStore w env creds ""

/-- store.go LoadCredentials: empty caller preference. -/
def LoadCredentials (w : World) (env : String) : Except GoError Credentials :=
  LoadCredentialsWithStore w env ""

/-- store.go DeleteCredentials: empty caller preference. -/
def DeleteCredentials (w : World) (env : String) : World × Option GoError :=
  DeleteCredentialsWithStore w env ""

/-!
The authenticator (Go package `internal/auth`). Its implementation file is
not part of the sources here; only its tests are (the auth test file
embedded in src). The definitions below are therefore modelled from the
spec (sections 4.2 and 8), at the granularity the tests exercise.
-/

/-- Whether the character list `needle` occurs as a contiguous run inside
`hay` (strings.Contains on the underlying characters). -/
def subList (needle : List Char) : List Char → Bool
  | [] => needle.isEmpty
  | c :: rest => needle.isPrefixOf (c :: rest) || subList needle rest

/-- strings.Contains: `marker` occurs inside `body`. -/
def containsMarker (body marker : String) : Bool :=
  subList marker.data body.data

/-- Modelled from the spec: the invalid-credentials negative marker, the
specific styled text fragment the auth tests serve
(`<span class="red11">Invalid username / password</span>`). -/
def invalidCredsMarker : String := "Invalid username / password"

/-- Modelled from the spec: the still-presenting-a-login-form negative
marker — a password-field input is still present or a "please log in"
phrase appears (the auth tests serve a page with a `password_login` input
and the phrase "Please log in"). -/
def hasLoginFormMarker (body : String) : Bool :=
  containsMarker body "password_login" || containsMarker body "Please log in"

/-- Classification of a login attempt (spec LoginOutcome; nil error is
Success). -/
inductive LoginError where
  | invalidCredentials
  | interactiveAuthRequired
  | transportOrServerError
deriving DecidableEq, Repr

/-- Endpoints the authenticator may request during one attempt. -/
inductive Endpoint where
  | loginPage
  | currentUser
deriving DecidableEq, Repr

/-- One login attempt: the endpoints requested, in order, and the outcome
(none = success). -/
structure LoginTrace where
  calls : List Endpoint
  result : Option LoginError
deriving DecidableEq, Repr

/-- Modelled from the spec: `Login` (package auth, implementation not in
src). The login form is submitted (one request to the login page, whose
response body is the `body` argument); the body is checked for the two
negative markers in order, each of which fails immediately without calling
the current-user verification endpoint; otherwise the current-user endpoint
is called and its outcome (`currentUserOk`) decides between Success and
TransportOrServerError. -/
def Login (body : String) (currentUserOk : Bool) : LoginTrace :=
  if containsMarker body invalidCredsMarker then
    { calls := [.loginPage], result := some .invalidCredentials }
  else if hasLoginFormMarker body then
    { calls := [.loginPage], result := some .interactiveAuthRequired }
  else if currentUserOk then
    { calls := [.loginPage, .currentUser], result := none }
  else
    { calls := [.loginPage, .currentUser], result := some .transportOrServerError }

/-- An HTTP cookie as the auth extractors see it: name, stored value, and
declared path scope. -/
structure Cookie where
  name : String
  value : String
  path : String
deriving DecidableEq, Repr

/-- The path-scoping rule: a cookie is eligible when its declared Path is a
prefix of (or equal to) the target mount path. -/
def pathMatches (cookiePath mount : String) : Bool :=
  cookiePath.data.isPrefixOf mount.data

/-- Modelled from the spec: among all cookies matching the name predicate
and the path-scoping rule, select the one with the most specific (longest)
path. -/
def selectCookie (jar : List Cookie) (nm mount : String) : Option Cookie :=
  jar.foldl
    (fun acc c =>
      if c.name = nm ∧ pathMatches c.path mount then
        match acc with
        | none => some c
        | some b => if b.path.length < c.path.length then some c else some b
      else acc)
    none

/-- Hex digit value, for percent-decoding. -/
def hexVal (c : Char) : Option Nat :=
  if '0' ≤ c ∧ c ≤ '9' then some (c.toNat - '0'.toNat)
  else if 'a' ≤ c ∧ c ≤ 'f' then some (c.toNat - 'a'.toNat + 10)
  else if 'A' ≤ c ∧ c ≤ 'F' then some (c.toNat - 'A'.toNat + 10)
  else none

/-- Percent-decoding of a character list: each `%xy` becomes the character
with code 16*x+y; a malformed escape fails. -/
def percentDecodeList : List Char → Option (List Char)
  | [] => some []
  | '%' :: h1 :: h2 :: rest => do
    let a ← hexVal h1
    let b ← hexVal h2
    let r ← percentDecodeList rest
    pure (Char.ofNat (16 * a + b) :: r)
  | '%' :: _ => none
  | c :: rest => do
    let r ← percentDecodeList rest
    pure (c :: r)

/-- URL-decoding of a cookie value. -/
def urlDecode (s : String) : Option String :=
  (percentDecodeList s.data).map List.asString

/-- Strip one layer of surrounding double-quote characters, if present. -/
def stripOuterQuotes (s : String) : String :=
  match s.data with
  | '\"' :: (c :: rest) =>
    if (c :: rest).getLast (by simp) = '\"' then
      ((c :: rest).dropLast).asString
    else s
  | _ => s

/-- Errors of the token extractors. -/
inductive AuthError where
  | xsrfCookieMissing
  | xsrfDecodeFailed
deriving DecidableEq, Repr

/-- Modelled from the spec: `ExtractXSRFToken` (package auth, implementation
not in src). Scans the jar for a cookie literally named X-XSRF-TOKEN under
the path-scoping rule, URL-decodes its value and strips one layer of
surrounding quote characters; fails if absent. -/
def ExtractXSRFToken (jar : List Cookie) (mount : String) : Except AuthError String :=
  match selectCookie jar "X-XSRF-TOKEN" mount with
  | none => .error .xsrfCookieMissing
  | some c =>
    match urlDecode c.value with
    | none => .error .xsrfDecodeFailed
    | some v => .ok (stripOuterQuotes v)

/-! Helper lemmas shared by the claim theorems. -/

lemma resolveStore_env_irrelevant (env pref : String) (h : trimSpace env = "") :
    resolveStore env pref = resolveStore "" pref := by
  have h0 : trimSpace "" = "" := rfl
  simp [resolveStore, h, h0]

lemma resolveStore_empty_keyring : resolveStore "" "keyring" = Except.ok "keyring" := by decide

lemma resolveStore_empty_file : resolveStore "" "file" = Except.ok "file" := by decide

lemma resolveStore_empty_auto : resolveStore "" "auto" = Except.ok "auto" := by decide

lemma resolveStore_empty_default : resolveStore "" "" = Except.ok "auto" := by decide

/-- C8: ValidateCredentialStore accepts exactly the raw inputs that, after
trimming whitespace and lowercasing, are empty, "auto", "keyring" or "file"
(so "", "AUTO", "auto", "keyring", "file" all validate), and rejects every
other input, such as "invalid-store", with the invalid-store error (whose
message names the allowed values). -/
theorem validateCredentialStore_accepts_exactly_normalized :
    (∀ s : String,
      ValidateCredentialStore s = none ↔
        (toLowerString (trimSpace s) = "" ∨ toLowerString (trimSpace s) = StoreAuto ∨
         toLowerString (trimSpace s) = StoreKeyring ∨ toLowerString (trimSpace s) = StoreFile)) ∧
    ValidateCredentialStore "" = none ∧
    ValidateCredentialStore "AUTO" = none ∧
    ValidateCredentialStore "auto" = none ∧
    ValidateCredentialStore "keyring" = none ∧
    ValidateCredentialStore "file" = none ∧
    ValidateCredentialStore "invalid-store" = some (GoError.invalidStore "invalid-store") := by
  refine ⟨fun s => ?_, by decide, by decide, by decide, by decide, by decide, by decide⟩
  by_cases h : toLowerString (trimSpace s) = ""
  · simp [ValidateCredentialStore, normalizeStore, h, defaultCredentialBackend]
  · by_cases ha : toLowerString (trimSpace s) = StoreAuto
    · simp [ValidateCredentialStore, normalizeStore, h, ha, StoreAuto, StoreKeyring, StoreFile,
        defaultCredentialBackend]
    · by_cases hk : toLowerString (trimSpace s) = StoreKeyring
      · simp [ValidateCredentialStore, normalizeStore, h, hk, StoreAuto, StoreKeyring, StoreFile,
          defaultCredentialBackend]
      · by_cases hf : toLowerString (trimSpace s) = StoreFile
        · simp [ValidateCredentialStore, normalizeStore, h, hf, StoreAuto, StoreKeyring, StoreFile,
            defaultCredentialBackend]
        · simp [ValidateCredentialStore, normalizeStore, h, ha, hk, hf]

lemma validateCredentialStore_error_shape (s : String) (e : GoError)
    (h : ValidateCredentialStore s = some e) : e = .invalidStore s := by
  unfold ValidateCredentialStore at h
  split_ifs at h
  cases h
  rfl

/-- C5: for every operation, a non-empty (after trimming) override
environment value determines the resolved store kind regardless of the
caller preference; when both the environment and the preference are empty
the resolved kind is Auto; every successfully resolved kind passes
validation; and a resolution failure is an invalid-store validation error
with which Save, Load and Delete all fail. -/
theorem resolveStore_precedence_and_validation :
    (∀ env p1 p2 : String, trimSpace env ≠ "" → resolveStore env p1 = resolveStore env p2) ∧
    (∀ env : String, trimSpace env = "" → resolveStore env "" = .ok StoreAuto) ∧
    (∀ env pref s : String, resolveStore env pref = .ok s → ValidateCredentialStore s = none) ∧
    (∀ env pref : String, ∀ e : GoError, resolveStore env pref = .error e →
      ∃ raw, e = GoError.invalidStore raw) ∧
    (∀ (w : World) (env pref : String) (creds : Credentials) (e : GoError),
      creds.username ≠ "" → creds.password ≠ "" →
      resolveStore env pref = .error e →
      SaveCredentialsWithStore w env creds pref = (w, some e) ∧
      LoadCredentialsWithStore w env pref = .error e ∧
      DeleteCredentialsWithStore w env pref = (w, some e)) := by
  refine ⟨?_, ?_, ?_, ?_, ?_⟩
  · intro env p1 p2 h
    simp [resolveStore, h]
  · intro env h
    rw [resolveStore_env_irrelevant env "" h]
    exact resolveStore_empty_default
  · intro env pref s h
    simp only [resolveStore] at h
    rcases hval : ValidateCredentialStore
        (normalizeStore (if trimSpace env = "" then pref else trimSpace env)) with _ | e
    · rw [hval] at h
      cases h
      exact hval
    · rw [hval] at h
      cases h
  · intro env pref e h
    simp only [resolveStore] at h
    rcases hval : ValidateCredentialStore
        (normalizeStore (if trimSpace env = "" then pref else trimSpace env)) with _ | e2
    · rw [hval] at h
      cases h
    · rw [hval] at h
      cases h
      exact ⟨_, validateCredentialStore_error_shape _ _ hval⟩
  · intro w env pref creds e hu hp hre
    refine ⟨?_, ?_, ?_⟩
    · simp [SaveCredentialsWithStore, hu, hp, hre]
    · simp [LoadCredentialsWithStore, hre]
    · simp [DeleteCredentialsWithStore, hre]

/-- C5 witness: instantiating the resolution theorem at concrete inputs. -/
theorem resolveStore_precedence_and_validation_witness :
    resolveStore "file" "keyring" = resolveStore "file" "auto" ∧
    resolveStore "  " "" = .ok StoreAuto ∧
    (SaveCredentialsWithStore {} "" ⟨"u", "p"⟩ "invalid-store" =
      ({}, some (GoError.invalidStore "invalid-store"))) := by
  refine ⟨?_, ?_, ?_⟩
  · exact resolveStore_precedence_and_validation.1 "file" "keyring" "auto" (by decide)
  · exact resolveStore_precedence_and_validation.2.1 "  " (by decide)
  · exact (resolveStore_precedence_and_validation.2.2.2.2 {} "" "invalid-store" ⟨"u", "p"⟩
      (GoError.invalidStore "invalid-store") (by decide) (by decide) (by decide)).1

/-- C1 counterexample: the credentials with the whitespace-only (but
non-empty) username " " and password "pw" save successfully to the file
backend, yet the subsequent load does not return them: it fails with the
missing-required-fields error. -/
theorem saveLoad_roundTrip_counterexample :
    ((" " : String) ≠ "") ∧ (("pw" : String) ≠ "") ∧
    (SaveCredentialsWithStore {} "" ⟨" ", "pw"⟩ StoreFile).2 = none ∧
    LoadCredentialsWithStore (SaveCredentialsWithStore {} "" ⟨" ", "pw"⟩ StoreFile).1 "" StoreFile
      = .error .missingRequiredFields := by decide

/-- C1 (amended): with no environment override, for each single-backend kind
(keyring or file), a successful save followed by a load over a backend that
keeps functioning returns the credentials unchanged — provided that for the
file kind the username is non-empty after trimming whitespace (the keyring
kind needs only non-emptiness). -/
theorem saveLoad_roundTrip (w : World) (env : String) (c : Credentials) (k : String)
    (henv : trimSpace env = "")
    (hk : k = StoreKeyring ∨ k = StoreFile)
    (hu : c.username ≠ "") (hp : c.password ≠ "")
    (hutrim : k = StoreFile → trimSpace c.username ≠ "")
    (hgu : w.krGetUserFail = false) (hgp : w.krGetPassFail = false)
    (hfr : w.fileReadFail = false)
    (hsave : (SaveCredentialsWithStore w env c k).2 = none) :
    LoadCredentialsWithStore (SaveCredentialsWithStore w env c k).1 env k = .ok c := by
  obtain ⟨u, p⟩ := c
  simp only at hu hp
  rcases hk with rfl | rfl
  · have hres : resolveStore env "keyring" = Except.ok "keyring" := by
      rw [resolveStore_env_irrelevant _ _ henv]
      exact resolveStore_empty_keyring
    cases hsu : w.krSetUserFail with
    | true =>
      exfalso
      simp [SaveCredentialsWithStore, hres, hu, hp, saveToKeyring, zkSetUser, hsu,
        StoreKeyring, StoreFile, StoreAuto] at hsave
    | false =>
      cases hsp : w.krSetPassFail with
      | true =>
        exfalso
        simp [SaveCredentialsWithStore, hres, hu, hp, saveToKeyring, zkSetUser, zkSetPass,
          hsu, hsp, StoreKeyring, StoreFile, StoreAuto] at hsave
      | false =>
        simp [SaveCredentialsWithStore, LoadCredentialsWithStore, hres, hu, hp,
          saveToKeyring, zkSetUser, zkSetPass, hsu, hsp, loadFromKeyring, zkGetUser,
          zkGetPass, hgu, hgp, StoreKeyring, StoreFile, StoreAuto]
  · have hres : resolveStore env "file" = Except.ok "file" := by
      rw [resolveStore_env_irrelevant _ _ henv]
      exact resolveStore_empty_file
    have hut := hutrim rfl
    cases hfw : w.fileWriteFail with
    | true =>
      exfalso
      simp [SaveCredentialsWithStore, hres, hu, hp, saveToFile, hfw,
        StoreKeyring, StoreFile, StoreAuto] at hsave
    | false =>
      simp [SaveCredentialsWithStore, LoadCredentialsWithStore, hres, hu, hp,
        saveToFile, loadFromFile, hfw, hfr, hut, StoreKeyring, StoreFile, StoreAuto]

/-- C1 witness: a concrete keyring round trip through the amended theorem. -/
theorem saveLoad_roundTrip_witness :
    LoadCredentialsWithStore
      (SaveCredentialsWithStore {} "" ⟨"user@example.com", "secret"⟩ StoreKeyring).1
      "" StoreKeyring = .ok ⟨"user@example.com", "secret"⟩ :=
  saveLoad_roundTrip {} "" ⟨"user@example.com", "secret"⟩ StoreKeyring (by decide)
    (Or.inl rfl) (by decide) (by decide) (by decide) rfl rfl rfl (by decide)

/-- C4 counterexample: with the keyring username entry present and the
password entry absent, Load over the keyring kind fails with the not-found
error itself — not with a distinct corrupt/incomplete condition as the
claim requires for this case. -/
theorem load_conditions_counterexample :
    LoadCredentialsWithStore { krUser := some "user@example.com" } "" StoreKeyring
      = .error .credentialsNotFound ∧
    GoError.is .credentialsNotFound .credentialsNotFound = true := by decide

/-- C4 (amended): for the file kind, Load fails with the not-found error
exactly when the file is absent — a present but unparseable file fails with
the wrapped parse error and a parseable file missing a required field fails
with the missing-required-fields error, neither of which is the not-found
condition (also under errors.Is), and a well-formed file loads — while for
the keyring kind, absence of either entry — including the case where the
username entry exists but the password entry is absent — yields the
not-found error. -/
theorem load_notFound_and_corrupt_conditions :
    (∀ w : World, w.fileReadFail = false → w.file = none →
      LoadCredentialsWithStore w "" StoreFile = .error .credentialsNotFound) ∧
    (∀ (w : World) (u p : String), w.fileReadFail = false →
      w.file = some (.yamlCreds u p) → (trimSpace u = "" ∨ p = "") →
      LoadCredentialsWithStore w "" StoreFile = .error .missingRequiredFields ∧
      GoError.missingRequiredFields ≠ GoError.credentialsNotFound ∧
      GoError.is .missingRequiredFields .credentialsNotFound = false) ∧
    (∀ w : World, w.fileReadFail = false → w.file = some .malformed →
      LoadCredentialsWithStore w "" StoreFile
        = .error (.wrap "parse credentials file" .parseFailure) ∧
      GoError.wrap "parse credentials file" .parseFailure ≠ GoError.credentialsNotFound ∧
      GoError.is (.wrap "parse credentials file" .parseFailure) .credentialsNotFound = false) ∧
    (∀ (w : World) (u p : String), w.fileReadFail = false →
      w.file = some (.yamlCreds u p) → trimSpace u ≠ "" → p ≠ "" →
      LoadCredentialsWithStore w "" StoreFile = .ok ⟨u, p⟩) ∧
    (∀ w : World, w.krGetUserFail = false → w.krGetPassFail = false → w.krUser = none →
      LoadCredentialsWithStore w "" StoreKeyring = .error .credentialsNotFound) ∧
    (∀ (w : World) (u : String), w.krGetUserFail = false → w.krGetPassFail = false →
      w.krUser = some u → w.krPass = none →
      LoadCredentialsWithStore w "" StoreKeyring = .error .credentialsNotFound) := by
  refine ⟨?_, ?_, ?_, ?_, ?_, ?_⟩
  · intro w hr hf
    simp [LoadCredentialsWithStore, resolveStore_empty_file, StoreFile, StoreKeyring,
      StoreAuto, loadFromFile, hr, hf]
  · intro w u p hr hf hmiss
    rcases hmiss with hmiss | hmiss <;>
      simp [LoadCredentialsWithStore, resolveStore_empty_file, StoreFile, StoreKeyring,
        StoreAuto, loadFromFile, hr, hf, hmiss, GoError.is]
  · intro w hr hf
    refine ⟨?_, by decide, by decide⟩
    simp [LoadCredentialsWithStore, resolveStore_empty_file, StoreFile, StoreKeyring,
      StoreAuto, loadFromFile, hr, hf]
  · intro w u p hr hf hu hp
    simp [LoadCredentialsWithStore, resolveStore_empty_file, StoreFile, StoreKeyring,
      StoreAuto, loadFromFile, hr, hf, hu, hp]
  · intro w hgu hgp hku
    simp [LoadCredentialsWithStore, resolveStore_empty_keyring, StoreFile, StoreKeyring,
      StoreAuto, loadFromKeyring, zkGetUser, zkGetPass, hgu, hgp, hku]
  · intro w u hgu hgp hku hkp
    simp [LoadCredentialsWithStore, resolveStore_empty_keyring, StoreFile, StoreKeyring,
      StoreAuto, loadFromKeyring, zkGetUser, zkGetPass, hgu, hgp, hku, hkp]

/-- C4 witness: concrete instances of the amended load conditions, including
a present-but-malformed file. -/
theorem load_notFound_and_corrupt_conditions_witness :
    LoadCredentialsWithStore {} "" StoreFile = .error .credentialsNotFound ∧
    LoadCredentialsWithStore { file := some (.yamlCreds "u" "") } "" StoreFile
      = .error .missingRequiredFields ∧
    LoadCredentialsWithStore { file := some .malformed } "" StoreFile
      = .error (.wrap "parse credentials file" .parseFailure) ∧
    LoadCredentialsWithStore { krUser := some "u" } "" StoreKeyring
      = .error .credentialsNotFound := by
  refine ⟨?_, ?_, ?_, ?_⟩
  · exact load_notFound_and_corrupt_conditions.1 {} rfl rfl
  · exact (load_notFound_and_corrupt_conditions.2.1 { file := some (.yamlCreds "u" "") }
      "u" "" rfl rfl (Or.inr rfl)).1
  · exact (load_notFound_and_corrupt_conditions.2.2.1 { file := some .malformed }
      rfl rfl).1
  · exact load_notFound_and_corrupt_conditions.2.2.2.2.2 { krUser := some "u" } "u"
      rfl rfl rfl rfl

/-- C2: LoadCredentialsWithStore in Auto mode returns the keyring result
immediately on success; otherwise returns the file result on success; if
both backends report not-found it returns the single not-found error; if
exactly one reports not-found it surfaces the other backend's error; and if
both fail with other errors it returns one error aggregating both. -/
theorem loadCredentials_auto_combination (w : World) (env : String)
    (henv : trimSpace env = "") :
    (∀ c, loadFromKeyring w = .ok c →
      LoadCredentialsWithStore w env StoreAuto = .ok c) ∧
    (∀ e c, loadFromKeyring w = .error e → loadFromFile w = .ok c →
      LoadCredentialsWithStore w env StoreAuto = .ok c) ∧
    (∀ e fe, loadFromKeyring w = .error e → loadFromFile w = .error fe →
      e.is .credentialsNotFound = true → fe.is .credentialsNotFound = true →
      LoadCredentialsWithStore w env StoreAuto = .error .credentialsNotFound) ∧
    (∀ e fe, loadFromKeyring w = .error e → loadFromFile w = .error fe →
      e.is .credentialsNotFound = true → fe.is .credentialsNotFound = false →
      LoadCredentialsWithStore w env StoreAuto = .error fe) ∧
    (∀ e fe, loadFromKeyring w = .error e → loadFromFile w = .error fe →
      e.is .credentialsNotFound = false → fe.is .credentialsNotFound = true →
      LoadCredentialsWithStore w env StoreAuto = .error e) ∧
    (∀ e fe, loadFromKeyring w = .error e → loadFromFile w = .error fe →
      e.is .credentialsNotFound = false → fe.is .credentialsNotFound = false →
      LoadCredentialsWithStore w env StoreAuto =
        .error (.agg "load credentials failed" e fe)) := by
  have hres : resolveStore env "auto" = Except.ok "auto" := by
    rw [resolveStore_env_irrelevant _ _ henv]
    exact resolveStore_empty_auto
  refine ⟨?_, ?_, ?_, ?_, ?_, ?_⟩
  · intro c hkr
    simp [LoadCredentialsWithStore, hres, StoreAuto, StoreKeyring, StoreFile, hkr]
  · intro e c hkr hfl
    simp [LoadCredentialsWithStore, hres, StoreAuto, StoreKeyring, StoreFile, hkr, hfl]
  · intro e fe hkr hfl h1 h2
    simp [LoadCredentialsWithStore, hres, StoreAuto, StoreKeyring, StoreFile, hkr, hfl, h1, h2]
  · intro e fe hkr hfl h1 h2
    simp [LoadCredentialsWithStore, hres, StoreAuto, StoreKeyring, StoreFile, hkr, hfl, h1, h2]
  · intro e fe hkr hfl h1 h2
    simp [LoadCredentialsWithStore, hres, StoreAuto, StoreKeyring, StoreFile, hkr, hfl, h1, h2]
  · intro e fe hkr hfl h1 h2
    simp [LoadCredentialsWithStore, hres, StoreAuto, StoreKeyring, StoreFile, hkr, hfl, h1, h2]

/-- C2 witness: the keyring-success case and the case where the keyring
fails with a non-not-found error while the file is absent, which surfaces
the keyring error. -/
theorem loadCredentials_auto_combination_witness :
    LoadCredentialsWithStore { krUser := some "u", krPass := some "p" } "" StoreAuto
      = .ok ⟨"u", "p"⟩ ∧
    LoadCredentialsWithStore { krGetUserFail := true } "" StoreAuto
      = .error (.wrap "read username from keyring" .keyringFailure) := by
  constructor
  · exact (loadCredentials_auto_combination { krUser := some "u", krPass := some "p" } ""
      (by decide)).1 ⟨"u", "p"⟩ (by decide)
  · exact (loadCredentials_auto_combination { krGetUserFail := true } "" (by decide)).2.2.2.2.1
      (.wrap "read username from keyring" .keyringFailure) .credentialsNotFound
      (by decide) (by decide) (by decide) (by decide)

/-- C6: SaveCredentialsWithStore in Auto mode attempts the keyring first and
returns nil if that succeeds (leaving the file backend untouched); on
keyring failure it attempts the file backend and returns nil if that
succeeds; it returns an error only when both backends fail, and that error
aggregates both underlying errors. -/
theorem saveCredentials_auto_fallback (w : World) (env : String) (c : Credentials)
    (henv : trimSpace env = "") (hu : c.username ≠ "") (hp : c.password ≠ "") :
    ((saveToKeyring w c).2 = none →
      SaveCredentialsWithStore w env c StoreAuto = ((saveToKeyring w c).1, none)) ∧
    (∀ ke, (saveToKeyring w c).2 = some ke →
      (saveToFile (saveToKeyring w c).1 c).2 = none →
      SaveCredentialsWithStore w env c StoreAuto =
        ((saveToFile (saveToKeyring w c).1 c).1, none)) ∧
    (∀ ke fe, (saveToKeyring w c).2 = some ke →
      (saveToFile (saveToKeyring w c).1 c).2 = some fe →
      SaveCredentialsWithStore w env c StoreAuto =
        ((saveToFile (saveToKeyring w c).1 c).1,
          some (.agg "save credentials failed" ke fe))) := by
  have hres : resolveStore env "auto" = Except.ok "auto" := by
    rw [resolveStore_env_irrelevant _ _ henv]
    exact resolveStore_empty_auto
  refine ⟨?_, ?_, ?_⟩
  · intro h2
    rcases hsk : saveToKeyring w c with ⟨w1, r⟩
    rw [hsk] at h2
    simp only at h2
    subst h2
    simp [SaveCredentialsWithStore, hres, hu, hp, hsk, StoreAuto, StoreKeyring, StoreFile]
  · intro ke h2 h3
    rcases hsk : saveToKeyring w c with ⟨w1, r⟩
    rw [hsk] at h2 h3
    simp only at h2 h3 ⊢
    subst h2
    rcases hsf : saveToFile w1 c with ⟨w2, r2⟩
    rw [hsf] at h3
    simp only at h3 ⊢
    subst h3
    simp [SaveCredentialsWithStore, hres, hu, hp, hsk, hsf, StoreAuto, StoreKeyring, StoreFile]
  · intro ke fe h2 h3
    rcases hsk : saveToKeyring w c with ⟨w1, r⟩
    rw [hsk] at h2 h3
    simp only at h2 h3 ⊢
    subst h2
    rcases hsf : saveToFile w1 c with ⟨w2, r2⟩
    rw [hsf] at h3
    simp only at h3 ⊢
    subst h3
    simp [SaveCredentialsWithStore, hres, hu, hp, hsk, hsf, StoreAuto, StoreKeyring, StoreFile]

/-- C6 witness: with a failing keyring backend the file fallback succeeds,
and with both backends failing the aggregate error names both causes. -/
theorem saveCredentials_auto_fallback_witness :
    SaveCredentialsWithStore { krSetUserFail := true } "" ⟨"u", "p"⟩ StoreAuto =
      ({ krSetUserFail := true, file := some (.yamlCreds "u" "p") }, none) ∧
    SaveCredentialsWithStore { krSetUserFail := true, fileWriteFail := true } ""
        ⟨"u", "p"⟩ StoreAuto =
      ({ krSetUserFail := true, fileWriteFail := true },
        some (.agg "save credentials failed"
          (.wrap "save username to keyring" .keyringFailure)
          (.wrap "write credentials file" .fsFailure))) := by
  constructor
  · exact (saveCredentials_auto_fallback { krSetUserFail := true } "" ⟨"u", "p"⟩
      (by decide) (by decide) (by decide)).2.1
      (.wrap "save username to keyring" .keyringFailure) (by decide) (by decide)
  · exact (saveCredentials_auto_fallback { krSetUserFail := true, fileWriteFail := true } ""
      ⟨"u", "p"⟩ (by decide) (by decide) (by decide)).2.2
      (.wrap "save username to keyring" .keyringFailure)
      (.wrap "write credentials file" .fsFailure) (by decide) (by decide)

/-- C7: DeleteCredentialsWithStore never fails solely because the target is
absent: with functioning backends, deleting in keyring mode or file mode
returns nil whatever is stored (including nothing); in Auto mode both
backends are attempted unconditionally (both keyring entries and the file
end up removed), an aggregated error is returned when both backends fail,
and no error when at least one succeeds. -/
theorem deleteCredentials_absence_tolerant (w : World) (env : String)
    (henv : trimSpace env = "") :
    (w.krDelUserFail = false → w.krDelPassFail = false →
      (DeleteCredentialsWithStore w env StoreKeyring).2 = none) ∧
    (w.fileRemoveFail = false →
      (DeleteCredentialsWithStore w env StoreFile).2 = none) ∧
    (w.krDelUserFail = false → w.krDelPassFail = false → w.fileRemoveFail = false →
      DeleteCredentialsWithStore w env StoreAuto =
        ({ w with krUser := none, krPass := none, file := none }, none)) ∧
    (∀ ke fe, (deleteFromKeyring w).2 = some ke →
      (deleteFromFile (deleteFromKeyring w).1).2 = some fe →
      (DeleteCredentialsWithStore w env StoreAuto).2 =
        some (.agg "delete credentials failed" ke fe)) ∧
    ((deleteFromKeyring w).2 = none ∨ (deleteFromFile (deleteFromKeyring w).1).2 = none →
      (DeleteCredentialsWithStore w env StoreAuto).2 = none) := by
  have hresk : resolveStore env "keyring" = Except.ok "keyring" := by
    rw [resolveStore_env_irrelevant _ _ henv]
    exact resolveStore_empty_keyring
  have hresf : resolveStore env "file" = Except.ok "file" := by
    rw [resolveStore_env_irrelevant _ _ henv]
    exact resolveStore_empty_file
  have hresa : resolveStore env "auto" = Except.ok "auto" := by
    rw [resolveStore_env_irrelevant _ _ henv]
    exact resolveStore_empty_auto
  refine ⟨?_, ?_, ?_, ?_, ?_⟩
  · intro hdu hdp
    cases hku : w.krUser <;> cases hkp : w.krPass <;>
      simp [DeleteCredentialsWithStore, hresk, StoreAuto, StoreKeyring, StoreFile,
        deleteFromKeyring, zkDelUser, zkDelPass, hdu, hdp, hku, hkp]
  · intro hrm
    cases hf : w.file <;>
      simp [DeleteCredentialsWithStore, hresf, StoreAuto, StoreKeyring, StoreFile,
        deleteFromFile, hrm, hf]
  · intro hdu hdp hrm
    obtain ⟨ku, kp, f, s1, s2, g1, g2, d1, d2, fw, fr, rm⟩ := w
    simp only at hdu hdp hrm
    subst hdu
    subst hdp
    subst hrm
    cases ku <;> cases kp <;> cases f <;>
      simp [DeleteCredentialsWithStore, hresa, StoreAuto, StoreKeyring, StoreFile,
        deleteFromKeyring, deleteFromFile, zkDelUser, zkDelPass]
  · intro ke fe h2 h3
    rcases hdk : deleteFromKeyring w with ⟨w1, r⟩
    rw [hdk] at h2 h3
    simp only at h2 h3
    subst h2
    rcases hdf : deleteFromFile w1 with ⟨w2, r2⟩
    rw [hdf] at h3
    simp only at h3
    subst h3
    simp [DeleteCredentialsWithStore, hresa, StoreAuto, StoreKeyring, StoreFile, hdk, hdf]
  · intro h
    rcases hdk : deleteFromKeyring w with ⟨w1, r⟩
    rw [hdk] at h
    simp only at h
    rcases hdf : deleteFromFile w1 with ⟨w2, r2⟩
    rw [hdf] at h
    simp only at h
    rcases h with h | h
    · subst h
      cases r2 <;>
        simp [DeleteCredentialsWithStore, hresa, StoreAuto, StoreKeyring, StoreFile, hdk, hdf]
    · subst h
      cases r <;>
        simp [DeleteCredentialsWithStore, hresa, StoreAuto, StoreKeyring, StoreFile, hdk, hdf]

/-- C7 witness: deleting over each kind with nothing stored returns nil, and
in Auto mode both backends are cleared. -/
theorem deleteCredentials_absence_tolerant_witness :
    (DeleteCredentialsWithStore {} "" StoreKeyring).2 = none ∧
    (DeleteCredentialsWithStore {} "" StoreFile).2 = none ∧
    DeleteCredentialsWithStore
        { krUser := some "u", krPass := some "p", file := some (.yamlCreds "u" "p") }
        "" StoreAuto =
      ({}, none) := by
  refine ⟨?_, ?_, ?_⟩
  · exact (deleteCredentials_absence_tolerant {} "" (by decide)).1 rfl rfl
  · exact (deleteCredentials_absence_tolerant {} "" (by decide)).2.1 rfl
  · exact (deleteCredentials_absence_tolerant
      { krUser := some "u", krPass := some "p", file := some (.yamlCreds "u" "p") } ""
      (by decide)).2.2.1 rfl rfl rfl

/-- C10: for credentials whose username is non-empty but consists only of
whitespace (with any non-empty password), a save on the file backend
succeeds, but the subsequent load fails with the missing-required-fields
error instead of returning the saved credentials; the password is not
subjected to the whitespace check — a whitespace-only password round-trips
unchanged. -/
theorem file_whitespace_username_asymmetry :
    (∀ (w : World) (env : String) (c : Credentials),
      trimSpace env = "" → w.fileWriteFail = false → w.fileReadFail = false →
      c.username ≠ "" → trimSpace c.username = "" → c.password ≠ "" →
      (SaveCredentialsWithStore w env c StoreFile).2 = none ∧
      LoadCredentialsWithStore (SaveCredentialsWithStore w env c StoreFile).1 env StoreFile
        = .error .missingRequiredFields) ∧
    (∀ (w : World) (env : String) (c : Credentials),
      trimSpace env = "" → w.fileWriteFail = false → w.fileReadFail = false →
      trimSpace c.username ≠ "" → c.password ≠ "" → trimSpace c.password = "" →
      (SaveCredentialsWithStore w env c StoreFile).2 = none ∧
      LoadCredentialsWithStore (SaveCredentialsWithStore w env c StoreFile).1 env StoreFile
        = .ok c) := by
  constructor
  · intro w env c henv hfw hfr hu hut hp
    obtain ⟨u, p⟩ := c
    simp only at hu hut hp
    have hres : resolveStore env "file" = Except.ok "file" := by
      rw [resolveStore_env_irrelevant _ _ henv]
      exact resolveStore_empty_file
    constructor
    · simp [SaveCredentialsWithStore, hres, hu, hp, saveToFile, hfw,
        StoreAuto, StoreKeyring, StoreFile]
    · simp [SaveCredentialsWithStore, LoadCredentialsWithStore, hres, hu, hp,
        saveToFile, loadFromFile, hfw, hfr, hut, StoreAuto, StoreKeyring, StoreFile]
  · intro w env c henv hfw hfr hut hp hpt
    obtain ⟨u, p⟩ := c
    simp only at hut hp hpt
    have hu : u ≠ "" := by
      intro h
      subst h
      exact hut rfl
    have hres : resolveStore env "file" = Except.ok "file" := by
      rw [resolveStore_env_irrelevant _ _ henv]
      exact resolveStore_empty_file
    constructor
    · simp [SaveCredentialsWithStore, hres, hu, hp, saveToFile, hfw,
        StoreAuto, StoreKeyring, StoreFile]
    · simp [SaveCredentialsWithStore, LoadCredentialsWithStore, hres, hu, hp,
        saveToFile, loadFromFile, hfw, hfr, hut, StoreAuto, StoreKeyring, StoreFile]

/-- C10 witness: the whitespace-only username " " saves to the file backend
but does not load back, and the whitespace-only password "  " round-trips
unchanged. -/
theorem file_whitespace_username_asymmetry_witness :
    ((SaveCredentialsWithStore {} "" ⟨" ", "pw"⟩ StoreFile).2 = none ∧
      LoadCredentialsWithStore (SaveCredentialsWithStore {} "" ⟨" ", "pw"⟩ StoreFile).1 "" StoreFile
        = .error .missingRequiredFields) ∧
    ((SaveCredentialsWithStore {} "" ⟨"user", "  "⟩ StoreFile).2 = none ∧
      LoadCredentialsWithStore (SaveCredentialsWithStore {} "" ⟨"user", "  "⟩ StoreFile).1 "" StoreFile
        = .ok ⟨"user", "  "⟩) := by
  constructor
  · exact file_whitespace_username_asymmetry.1 {} "" ⟨" ", "pw"⟩ (by decide) rfl rfl
      (by decide) (by decide) (by decide)
  · exact file_whitespace_username_asymmetry.2 {} "" ⟨"user", "  "⟩ (by decide) rfl rfl
      (by decide) (by decide) (by decide)

/-- C3: whenever the login response body matches the invalid-credentials
marker, Login classifies the attempt as InvalidCredentials; whenever it does
not match that marker but matches the still-presenting-a-login-form marker,
Login classifies it as InteractiveAuthRequired; in both cases the
current-user verification endpoint receives zero requests during the
attempt. -/
theorem login_negative_markers_short_circuit :
    (∀ (body : String) (serverOk : Bool),
      containsMarker body invalidCredsMarker = true →
      Login body serverOk = { calls := [.loginPage], result := some .invalidCredentials } ∧
      Endpoint.currentUser ∉ (Login body serverOk).calls) ∧
    (∀ (body : String) (serverOk : Bool),
      containsMarker body invalidCredsMarker = false →
      hasLoginFormMarker body = true →
      Login body serverOk = { calls := [.loginPage], result := some .interactiveAuthRequired } ∧
      Endpoint.currentUser ∉ (Login body serverOk).calls) := by
  constructor
  · intro body serverOk h1
    constructor
    · simp [Login, h1]
    · simp [Login, h1]
  · intro body serverOk h1 h2
    constructor
    · simp [Login, h1, h2]
    · simp [Login, h1, h2]

/-- C3 witness: the two server responses the auth tests serve — the styled
invalid-credentials fragment and the page still presenting a login form —
each short-circuit without a current-user call. -/
theorem login_negative_markers_short_circuit_witness :
    (Login "<span class=\"red11\">Invalid username / password</span>" true
      = { calls := [.loginPage], result := some .invalidCredentials } ∧
     Endpoint.currentUser ∉
      (Login "<span class=\"red11\">Invalid username / password</span>" true).calls) ∧
    (Login "<html><body><span>Please log in to your account below</span><form><input name=\"password_login\" /></form></body></html>" true
      = { calls := [.loginPage], result := some .interactiveAuthRequired } ∧
     Endpoint.currentUser ∉
      (Login "<html><body><span>Please log in to your account below</span><form><input name=\"password_login\" /></form></body></html>" true).calls) := by
  constructor
  · exact login_negative_markers_short_circuit.1
      "<span class=\"red11\">Invalid username / password</span>" true (by decide)
  · exact login_negative_markers_short_circuit.2
      "<html><body><span>Please log in to your account below</span><form><input name=\"password_login\" /></form></body></html>"
      true (by decide) (by decide)

/-- C9: ExtractXSRFToken, on a jar holding a cookie named X-XSRF-TOKEN whose
stored value is the quoted, percent-encoded "tok%2Ben%2F1" (with the quote
characters) scoped to the mount path, URL-decodes the value and strips one
layer of surrounding quotes, returning tok+en/1; an unrelated cookie in the
jar does not disturb the scan. -/
theorem extractXSRFToken_decodes_quoted_token :
    ExtractXSRFToken
      [{ name := "productionaccess_token", value := "abc123", path := "/wand2" },
       { name := "X-XSRF-TOKEN", value := "\"tok%2Ben%2F1\"", path := "/wand" }]
      "/wand" = .ok "tok+en/1" := by decide

end MagnitVms
